import Mathlib

/-!
Shallow embedding of the telegram-agent reporting system
(`src/bot/database_enhanced.py`, `src/bot/permissions.py`,
`src/bot/gemini_client.py`, `src/bot/report_handlers.py`).

Database tables are lists of row structures; every query from the source is
translated into a pure function over those lists.  SQLite `fetchone` on a
primary-key lookup becomes `List.find?`; Python dict truthiness on integers
and `None` is modelled explicitly.  The recursive CTE in
`get_department_hierarchy` (a `UNION ALL` queue process with no
deduplication) is modelled as a fuel-indexed queue run returning `none` when
the queue has not drained within the given fuel, i.e. when the SQL query
does not terminate within that many row extractions.
-/

/-- Permission flag set parsed from a role's `permissions` JSON column.
Keys absent from the JSON read as `false` (`dict.get` default). -/
structure Permissions where
  can_create_report : Bool
  can_view_own : Bool
  can_view_department : Bool
  can_view_subdepartments : Bool
  can_approve : Bool
  can_create_cumulative : Bool
  can_manage_users : Bool
  can_manage_departments : Bool
  can_view_all : Bool
deriving DecidableEq, Repr

/-- The all-false permission dict `{}` (the JSON parse failure fallback). -/
def noPerms : Permissions :=
  ⟨false, false, false, false, false, false, false, false, false⟩

/-- Row of the `users` table (columns not read by the embedded logic —
username, names, email, phone, timestamps — are omitted). -/
structure UserRow where
  user_id : Nat
  is_active : Bool
deriving DecidableEq, Repr

/-- Row of the `departments` table (descriptive columns `name_en`,
`description`, `manager_id` and timestamps omitted). -/
structure DeptRow where
  id : Nat
  name : String
  parent_department_id : Option Nat
  level : Int
  is_active : Bool
deriving DecidableEq, Repr

/-- Row of the `roles` table.  `permissions` is the parsed value of the
`permissions` JSON column (`{}` when empty or invalid, as in
`get_user_roles`).  `description_permissions` is the value obtained when the
`description` column is parsed as a permissions JSON object — this is what
the second `get_role_by_name` definition (database_enhanced.py:905) does
with `row[3]`; for the catalog roles the description is prose, so the parse
fails and the result is `{}`. -/
structure RoleRow where
  id : Nat
  name : String
  name_ar : String
  description : String
  level : Int
  permissions : Permissions
  description_permissions : Permissions
deriving DecidableEq, Repr

/-- Row of the `user_roles` table (`expires_at` omitted; timestamps are
modelled as abstract `Nat` ticks). -/
structure UserRoleRow where
  user_id : Nat
  role_id : Nat
  department_id : Option Nat
  is_active : Bool
  is_primary : Bool
  assigned_by : Option Nat
  assigned_at : Nat
deriving DecidableEq, Repr

/-- Row of the `reports` table.  `department_id` is `Option` even though the
schema declares it NOT NULL, so that the spec's "null department reference"
edge case can be stated.  `metadata`/`tags` and `updated_at` omitted. -/
structure ReportRow where
  id : Nat
  title : String
  content : String
  report_type : String
  status : String
  priority : String
  visibility : String
  submitted_by : Nat
  department_id : Option Nat
  is_cumulative : Bool
  source_report_ids : Option (List Nat)
  aggregation_type : Option String
  aggregation_period : Option String
  aggregation_start_date : Option Nat
  aggregation_end_date : Option Nat
  submitted_at : Option Nat
deriving DecidableEq, Repr

/-- Row of the `report_approvals` table (`notes` omitted). -/
structure ApprovalRow where
  report_id : Nat
  approver_id : Nat
  status : String
  approved_at : Option Nat
deriving DecidableEq, Repr

/-- Row of the `report_aggregations` table (`weight`, `included_at`
omitted). -/
structure AggRow where
  cumulative_report_id : Nat
  source_report_id : Nat
  department_id : Option Nat
deriving DecidableEq, Repr

/-- The database state: one list per table used by the embedded logic. -/
structure DB where
  users : List UserRow
  departments : List DeptRow
  roles : List RoleRow
  user_roles : List UserRoleRow
  reports : List ReportRow
  report_approvals : List ApprovalRow
  report_aggregations : List AggRow
deriving DecidableEq, Repr

/-- `get_user` (database_enhanced.py:60): `SELECT * FROM users WHERE
user_id = ?`, `fetchone`. -/
def get_user (db : DB) (uid : Nat) : Option UserRow :=
  db.users.find? (fun u => u.user_id == uid)

/-- `ORDER BY level, name` comparison used by `get_all_departments`. -/
def deptOrder (a b : DeptRow) : Bool :=
  decide (a.level < b.level) || (a.level == b.level && decide (a.name ≤ b.name))

/-- Ordered insertion (structurally recursive, so that concrete states
evaluate inside the kernel). -/
def ordInsert (le : α → α → Bool) (a : α) : List α → List α
  | [] => [a]
  | b :: l => if le a b then a :: b :: l else b :: ordInsert le a l

/-- Insertion sort modelling a SQL `ORDER BY` clause (which only permutes
the selected rows). -/
def orderBy (le : α → α → Bool) (l : List α) : List α :=
  l.foldr (ordInsert le) []

/-- `get_all_departments` (database_enhanced.py:124): optionally filter
`is_active = 1`, then `ORDER BY level, name`. -/
def get_all_departments (db : DB) (active_only : Bool) : List DeptRow :=
  orderBy deptOrder
    (if active_only then db.departments.filter (fun d => d.is_active)
     else db.departments)

/-- The ids produced by the recursive step of the CTE in
`get_department_hierarchy`: `SELECT d.id FROM departments d JOIN dept_tree
dt ON d.parent_department_id = dt.id` for a single extracted row `p`. -/
def childIds (depts : List DeptRow) (p : Nat) : List Nat :=
  (depts.filter (fun d => d.parent_department_id == some p)).map (fun d => d.id)

/-- SQLite's recursive-CTE queue process for `WITH RECURSIVE ... UNION ALL`:
rows are extracted one at a time; each extraction appends the join results
to the queue; with `UNION ALL` nothing is deduplicated.  `fuel` bounds the
number of extractions; `none` means the queue had not drained within
`fuel` steps — the query itself imposes no bound. -/
def cteRun (depts : List DeptRow) (queue : List Nat) (fuel : Nat) : Option (List Nat) :=
  match queue, fuel with
  | [], _ => some []
  | _ :: _, 0 => none
  | x :: q, f + 1 => (cteRun depts (q ++ childIds depts x) f).map (fun rest => x :: rest)

/-- `get_department_hierarchy` (database_enhanced.py:144): the recursive CTE
seeded with `SELECT id FROM departments WHERE id = ?`. -/
def get_department_hierarchy (db : DB) (dept_id : Nat) (fuel : Nat) : Option (List Nat) :=
  cteRun db.departments ((db.departments.filter (fun d => d.id == dept_id)).map (fun d => d.id)) fuel

/-- Spec-side descendant closure: a department and all its transitive
children via `parent_department_id` links (the glossary's "department
hierarchy/subtree").  The root belongs to the closure when it is present in
the table. -/
inductive Desc (depts : List DeptRow) (root : Nat) : Nat → Prop
  | refl : (∃ d ∈ depts, d.id = root) → Desc depts root root
  | step {p c : Nat} : Desc depts root p → c ∈ childIds depts p → Desc depts root c

/-- The joined dict produced per row by `get_user_roles`
(database_enhanced.py:263): role columns plus the assignment's
`department_id` and the left-joined department name. -/
structure UserRoleInfo where
  role_id : Nat
  role_name : String
  role_name_ar : String
  level : Int
  permissions : Permissions
  department_id : Option Nat
  department_name : Option String
deriving DecidableEq, Repr

/-- `get_user_roles` (database_enhanced.py:263): active assignments of the
user, inner-joined with `roles`, left-joined with `departments`.  Row order
follows the `user_roles` scan order (SQLite leaves it unspecified; only the
multiset matters to the callers except for `max` tie-breaking). -/
def get_user_roles (db : DB) (uid : Nat) : List UserRoleInfo :=
  (db.user_roles.filter (fun ur => ur.user_id == uid && ur.is_active)).flatMap (fun ur =>
    (db.roles.filter (fun r => r.id == ur.role_id)).map (fun r =>
      { role_id := r.id
        role_name := r.name
        role_name_ar := r.name_ar
        level := r.level
        permissions := r.permissions
        department_id := ur.department_id
        department_name :=
          ur.department_id.bind (fun d =>
            (db.departments.find? (fun dd => dd.id == d)).map (fun dd => dd.name)) }))

/-- Python `max(roles, key=lambda x: x['level'])` on a nonempty list: keeps
the first element of maximal level. -/
def pyMaxByLevel (roles : List UserRoleInfo) : Option UserRoleInfo :=
  match roles with
  | [] => none
  | h :: t => some (t.foldl (fun acc x => if acc.level < x.level then x else acc) h)

/-- `get_user_primary_role` (database_enhanced.py:300): `None` when the user
has no active role, else the highest-level role. -/
def get_user_primary_role (db : DB) (uid : Nat) : Option UserRoleInfo :=
  pyMaxByLevel (get_user_roles db uid)

/-- `get_user_department` (database_enhanced.py:307): the department of the
highest-level role (may itself be `None`). -/
def get_user_department (db : DB) (uid : Nat) : Option Nat :=
  (pyMaxByLevel (get_user_roles db uid)).bind (fun r => r.department_id)

/-- `has_permission` (database_enhanced.py:320): some active role carries
the flag.  The permission name is modelled as a field selector. -/
def has_permission (db : DB) (uid : Nat) (perm : Permissions → Bool) : Bool :=
  (get_user_roles db uid).any (fun r => perm r.permissions)

/-- `can_access_department` (database_enhanced.py:329).  `dept_id` is
`Option` because callers pass `report['department_id']`, which may be NULL.
The result is `none` exactly when the hierarchy CTE fails to drain within
`fuel` (the Python call would not return). -/
def can_access_department (db : DB) (uid : Nat) (dept_id : Option Nat) (fuel : Nat) :
    Option Bool :=
  match get_user_primary_role db uid with
  | none => some false
  | some user_role =>
    if user_role.role_name == "admin" then some true
    else
      match user_role.department_id with
      | none => some false
      | some user_dept =>
        if user_dept == 0 then some false
        else if dept_id == some user_dept then some true
        else if user_role.permissions.can_view_subdepartments then
          (get_department_hierarchy db user_dept fuel).map (fun hier =>
            match dept_id with
            | some d => hier.contains d
            | none => false)
        else some false

/-- The joined dict produced by `get_report` (database_enhanced.py:386);
fields not read by the embedded callers are carried through from the row. -/
structure ReportInfo where
  id : Nat
  title : String
  content : String
  report_type : String
  status : String
  priority : String
  visibility : String
  submitted_by : Nat
  department_id : Option Nat
  is_cumulative : Bool
  submitted_at : Option Nat
  submitter_name : String
  department_name : String
deriving DecidableEq, Repr

/-- `get_report` (database_enhanced.py:386): the report row inner-joined
with its submitter and its department; a NULL or dangling `department_id`
(or a missing submitter) makes the join empty, so the lookup yields
`None`. -/
def get_report (db : DB) (report_id : Nat) : Option ReportInfo :=
  (db.reports.find? (fun r => r.id == report_id)).bind (fun r =>
    (db.users.find? (fun u => u.user_id == r.submitted_by)).bind (fun _u =>
      (r.department_id.bind (fun d => db.departments.find? (fun dd => dd.id == d))).map
        (fun dd =>
          { id := r.id
            title := r.title
            content := r.content
            report_type := r.report_type
            status := r.status
            priority := r.priority
            visibility := r.visibility
            submitted_by := r.submitted_by
            department_id := r.department_id
            is_cumulative := r.is_cumulative
            submitted_at := r.submitted_at
            submitter_name := ""
            department_name := dd.name })))

/-- The dict returned by the SECOND `get_role_by_name` definition
(database_enhanced.py:905).  The class defines the method twice; Python
keeps the later definition, which reads `row[3]` (the `description` column)
as the permissions JSON and returns only the keys
`id`, `name`, `display_name`, `permissions` — in particular NO `level`
key. -/
structure RoleByName where
  id : Nat
  name : String
  display_name : String
  permissions : Permissions
deriving DecidableEq, Repr

/-- `get_role_by_name` (database_enhanced.py:905, the definition that
shadows the one at line 185): `SELECT * FROM roles WHERE name = ?`. -/
def get_role_by_name (db : DB) (role_name : String) : Option RoleByName :=
  (db.roles.find? (fun r => r.name == role_name)).map (fun r =>
    { id := r.id
      name := r.name
      display_name := r.name_ar
      permissions := r.description_permissions })

/-- Python dict subscript `target_role['level']` on the dict returned by
`get_role_by_name`: the dict has no `level` key, so the lookup raises
`KeyError`; modelled as `none`. -/
def RoleByName.levelKey (_ : RoleByName) : Option Int := none

/- User-facing Arabic denial strings from permissions.py are represented by
short constants; their exact text is not load-bearing for any claim. -/

/-- permissions.py denial text "your account is not active". -/
def msgInactive : String := "ACCOUNT_INACTIVE"

/-- permissions.py denial text "no permission to create reports". -/
def msgNoCreate : String := "NO_CREATE_PERMISSION"

/-- permissions.py denial text "no permission to manage users". -/
def msgNoManage : String := "NO_MANAGE_USERS_PERMISSION"

/-- permissions.py denial text "role {name} does not exist". -/
def msgRoleMissing : String := "ROLE_NOT_FOUND"

/-- permissions.py denial text "cannot grant a role higher than yours". -/
def msgRoleTooHigh : String := "ROLE_NOT_BELOW_OWN"

/-- permissions.py denial text "you can only grant roles in your
department". -/
def msgWrongDept : String := "NOT_YOUR_DEPARTMENT"

/-- permissions.py denial text "you can only create reports in your
department". -/
def msgNotOwnDept : String := "REPORT_NOT_OWN_DEPARTMENT"

/-- `AccessControl.can_create_report` (permissions.py:21). -/
def can_create_report (db : DB) (uid : Nat) : Bool :=
  match get_user db uid with
  | none => false
  | some u =>
    if !u.is_active then false
    else has_permission db uid (fun p => p.can_create_report)

/-- `AccessControl.can_view_report` (permissions.py:30).  `none` models a
non-returning hierarchy query inside `can_access_department`. -/
def can_view_report (db : DB) (uid report_id : Nat) (fuel : Nat) : Option Bool :=
  match get_user db uid with
  | none => some false
  | some u =>
    if !u.is_active then some false
    else
      match get_report db report_id with
      | none => some false
      | some report =>
        if report.submitted_by == uid then some true
        else if report.visibility == "public" then some true
        else can_access_department db uid report.department_id fuel

/-- `AccessControl.can_approve_report` (permissions.py:52). -/
def can_approve_report (db : DB) (uid report_id : Nat) (fuel : Nat) : Option Bool :=
  match get_user db uid with
  | none => some false
  | some u =>
    if !u.is_active then some false
    else if !has_permission db uid (fun p => p.can_approve) then some false
    else
      match get_report db report_id with
      | none => some false
      | some report =>
        if report.submitted_by == uid then some false
        else can_access_department db uid report.department_id fuel

/-- `AccessControl.can_create_cumulative_report` (permissions.py:73). -/
def can_create_cumulative_report (db : DB) (uid : Nat) : Bool :=
  match get_user db uid with
  | none => false
  | some u =>
    if !u.is_active then false
    else has_permission db uid (fun p => p.can_create_cumulative)

/-- `AccessControl.can_manage_users` (permissions.py:82). -/
def can_manage_users (db : DB) (uid : Nat) : Bool :=
  match get_user db uid with
  | none => false
  | some u =>
    if !u.is_active then false
    else has_permission db uid (fun p => p.can_manage_users)

/-- `AccessControl.can_manage_departments` (permissions.py:91). -/
def can_manage_departments (db : DB) (uid : Nat) : Bool :=
  match get_user db uid with
  | none => false
  | some u =>
    if !u.is_active then false
    else has_permission db uid (fun p => p.can_manage_departments)

/-- `AccessControl.is_admin` (permissions.py:104); a missing primary role is
falsy in `role and role['role_name'] == 'admin'`. -/
def is_admin (db : DB) (uid : Nat) : Bool :=
  match get_user db uid with
  | none => false
  | some u =>
    if !u.is_active then false
    else
      match get_user_primary_role db uid with
      | none => false
      | some role => role.role_name == "admin"

/-- `AccessControl.is_upper_manager` (permissions.py:114). -/
def is_upper_manager (db : DB) (uid : Nat) : Bool :=
  match get_user db uid with
  | none => false
  | some u =>
    if !u.is_active then false
    else
      match get_user_primary_role db uid with
      | none => false
      | some role => ["upper_manager", "admin"].contains role.role_name

/-- `AccessControl.is_manager` (permissions.py:124). -/
def is_manager (db : DB) (uid : Nat) : Bool :=
  match get_user db uid with
  | none => false
  | some u =>
    if !u.is_active then false
    else
      match get_user_primary_role db uid with
      | none => false
      | some role => ["manager", "upper_manager", "admin"].contains role.role_name

/-- `AccessControl.get_accessible_departments` (permissions.py:138).
Python `if not user_dept` treats both `None` and `0` as falsy; SQLite row
ids are ≥ 1, so the `0` test only matters for malformed data. -/
def get_accessible_departments (db : DB) (uid : Nat) (fuel : Nat) : Option (List Nat) :=
  match get_user db uid with
  | none => some []
  | some u =>
    if !u.is_active then some []
    else
      match get_user_primary_role db uid with
      | none => some []
      | some user_role =>
        if user_role.role_name == "admin" then
          some ((get_all_departments db true).map (fun d => d.id))
        else
          match user_role.department_id with
          | none => some []
          | some user_dept =>
            if user_dept == 0 then some []
            else if user_role.permissions.can_view_subdepartments then
              get_department_hierarchy db user_dept fuel
            else if user_role.permissions.can_view_department then some [user_dept]
            else some []

/-- `AccessControl.validate_report_creation` (permissions.py:221). -/
def validate_report_creation (db : DB) (uid : Nat) (department_id : Option Nat) :
    Bool × String :=
  match get_user db uid with
  | none => (false, msgInactive)
  | some u =>
    if !u.is_active then (false, msgInactive)
    else if !can_create_report db uid then (false, msgNoCreate)
    else
      let user_dept := get_user_department db uid
      match get_user_primary_role db uid with
      | some user_role =>
        if user_role.role_name == "admin" then (true, "")
        else if department_id != user_dept then (false, msgNotOwnDept)
        else (true, "")
      | none =>
        if department_id != user_dept then (false, msgNotOwnDept)
        else (true, "")

/-- `AccessControl.can_assign_role` (permissions.py:272).  The returned
value is `none` when the Python call raises instead of returning: the
`target_role['level']` subscript hits the dict built by the second
`get_role_by_name` definition, which carries no `level` key, so every call
that reaches the rank comparison raises `KeyError('level')`. -/
def can_assign_role (db : DB) (assigner_id _target_user_id : Nat) (role_name : String)
    (department_id : Option Nat) : Option (Bool × String) :=
  match get_user db assigner_id with
  | none => some (false, msgInactive)
  | some a =>
    if !a.is_active then some (false, msgInactive)
    else if !can_manage_users db assigner_id then some (false, msgNoManage)
    else
      let assigner_role := get_user_primary_role db assigner_id
      match get_role_by_name db role_name with
      | none => some (false, msgRoleMissing)
      | some target_role =>
        match target_role.levelKey with
        | none => none
        | some target_level =>
          match assigner_role with
          | none => none
          | some ar =>
            if decide (target_level ≥ ar.level) then some (false, msgRoleTooHigh)
            else if ar.role_name == "admin" then some (true, "")
            else if department_id != ar.department_id then some (false, msgWrongDept)
            else some (true, "")

/-- SQLite AUTOINCREMENT id for the next `reports` row. -/
def nextReportId (db : DB) : Nat :=
  db.reports.foldl (fun m r => max m r.id) 0 + 1

/-- `create_report` (database_enhanced.py:358): inserts one row; the schema
defaults fill `visibility = 'department'` and `is_cumulative = 0`;
`submitted_at` is stamped unless the status is `'draft'`. -/
def create_report (db : DB) (title content report_type : String) (uid : Nat)
    (department_id : Option Nat) (status priority : String) (now : Nat) : DB × Nat :=
  let rid := nextReportId db
  let submitted_at : Option Nat := if status != "draft" then some now else none
  ({ db with
      reports := db.reports ++
        [{ id := rid
           title := title
           content := content
           report_type := report_type
           status := status
           priority := priority
           visibility := "department"
           submitted_by := uid
           department_id := department_id
           is_cumulative := false
           source_report_ids := none
           aggregation_type := none
           aggregation_period := none
           aggregation_start_date := none
           aggregation_end_date := none
           submitted_at := submitted_at }] },
   rid)

/-- `update_report_status` (database_enhanced.py:531): sets the status
column unconditionally — no check of the current status; `submitted_at` is
touched only when the new status is `'submitted'`. -/
def update_report_status (db : DB) (report_id : Nat) (status : String) (now : Nat) :
    DB × Bool :=
  let success := db.reports.any (fun r => r.id == report_id)
  ({ db with
      reports := db.reports.map (fun r =>
        if r.id == report_id then
          if status == "submitted" then { r with status := status, submitted_at := some now }
          else { r with status := status }
        else r) },
   success)

/-- `add_approval` (database_enhanced.py:610). -/
def add_approval (db : DB) (report_id approver_id : Nat) (status : String) (now : Nat) :
    DB :=
  { db with
      report_approvals := db.report_approvals ++
        [{ report_id := report_id
           approver_id := approver_id
           status := status
           approved_at := if status == "approved" then some now else none }] }

/-- `create_cumulative_report` (database_enhanced.py:559): inserts one
report row with literal `report_type = 'cumulative'`, literal
`status = 'submitted'`, `is_cumulative = 1` and a stamped `submitted_at`,
then one `report_aggregations` row per source id. -/
def create_cumulative_report (db : DB) (title : String) (source_report_ids : List Nat)
    (aggregation_type aggregation_period : String) (uid : Nat)
    (department_id : Option Nat) (content : String)
    (start_date end_date : Option Nat) (now : Nat) : DB × Nat :=
  let rid := nextReportId db
  let db1 :=
    { db with
        reports := db.reports ++
          [{ id := rid
             title := title
             content := content
             report_type := "cumulative"
             status := "submitted"
             priority := "normal"
             visibility := "department"
             submitted_by := uid
             department_id := department_id
             is_cumulative := true
             source_report_ids := some source_report_ids
             aggregation_type := some aggregation_type
             aggregation_period := some aggregation_period
             aggregation_start_date := start_date
             aggregation_end_date := end_date
             submitted_at := some now }] }
  (source_report_ids.foldl (fun acc sid =>
      { acc with
          report_aggregations := acc.report_aggregations ++
            [{ cumulative_report_id := rid
               source_report_id := sid
               department_id :=
                 (db.reports.find? (fun r => r.id == sid)).bind (fun r => r.department_id) }] })
    db1,
   rid)

/-- `assign_role` (database_enhanced.py:201).  The `INSERT` raises
`IntegrityError` exactly when a row with the same
`(user_id, role_id, department_id)` exists and the department is not NULL
(SQLite UNIQUE treats NULLs as distinct); the handler then updates that row
in place.  When the update matches a row, the `rowcount == 0`
delete-and-reinsert fallback is dead code on this path. -/
def assign_role (db : DB) (uid : Nat) (role_name : String) (department_id : Option Nat)
    (assigned_by : Option Nat) (is_primary : Bool) (now : Nat) : DB × Bool :=
  match get_role_by_name db role_name with
  | none => (db, false)
  | some role =>
    let table0 :=
      if is_primary then
        db.user_roles.map (fun ur =>
          if ur.user_id == uid then { ur with is_primary := false } else ur)
      else db.user_roles
    let conflict :=
      department_id.isSome &&
        table0.any (fun ur =>
          ur.user_id == uid && ur.role_id == role.id && ur.department_id == department_id)
    if !conflict then
      ({ db with
          user_roles := table0 ++
            [{ user_id := uid
               role_id := role.id
               department_id := department_id
               is_active := true
               is_primary := is_primary
               assigned_by := assigned_by
               assigned_at := now }] },
       true)
    else
      ({ db with
          user_roles := table0.map (fun ur =>
            if ur.user_id == uid && ur.role_id == role.id &&
                ur.department_id == department_id then
              { ur with
                  is_active := true
                  is_primary := is_primary
                  assigned_by := assigned_by
                  assigned_at := now }
            else ur) },
       true)

/-- `deactivate_user` (database_enhanced.py:894): clears the user's active
flag; role assignment rows are untouched. -/
def deactivate_user (db : DB) (uid : Nat) : DB × Bool :=
  ({ db with
      users := db.users.map (fun u =>
        if u.user_id == uid then { u with is_active := false } else u) },
   db.users.any (fun u => u.user_id == uid))

/-- One candidate of a text-generation response.  `finish_reason` follows
the service's coding (1 = STOP, 2 = SAFETY, 3 = RECITATION, 4 = OTHER).
`text` is the value of `response.text` when that accessor succeeds;
`parts_text` is the `candidate.content.parts[0].text` fallback. -/
structure GeminiCandidate where
  finish_reason : Nat
  text : Option String
  parts_text : Option String
deriving DecidableEq, Repr

/-- A text-generation response as observed by `summarize_text`. -/
structure GeminiResponse where
  candidates : List GeminiCandidate
deriving DecidableEq, Repr

/-- The fixed Arabic rejection message built by `summarize_text` when the
summarization call is blocked by the safety policy (finish_reason 2):
gemini_client.py:253-255. -/
def safetyBlockMsgAr : String :=
  "تم حظر المحتوى بواسطة فلاتر الأمان.\n\n" ++
  "السبب المحتمل: المحادثات تحتوي على محتوى حساس.\n" ++
  "الحل: حاول مع محادثات مختلفة أو استخدم /clear لمسح المحادثات."

/-- `GeminiClient.summarize_text` (gemini_client.py:156), from the point
where the service response is in hand: every failure mode is mapped to a
returned message string — the function never raises on a policy block. -/
def summarize_text (resp : GeminiResponse) (language : String) : String :=
  match resp.candidates with
  | [] =>
    if language == "ar" then "لا يوجد رد من النموذج" else "No response from model"
  | candidate :: _ =>
    if candidate.finish_reason == 2 then
      if language == "ar" then safetyBlockMsgAr
      else "Content blocked by safety filters. Try different conversations."
    else if candidate.finish_reason == 3 then
      if language == "ar" then "المحتوى محمي بحقوق النشر"
      else "Content protected by copyright"
    else if candidate.finish_reason == 4 then
      if language == "ar" then "فشل في التلخيص لأسباب فنية"
      else "Failed due to technical reasons"
    else
      match candidate.text with
      | some t => t
      | none =>
        match candidate.parts_text with
        | some t => t
        | none =>
          if language == "ar" then "لا يمكن استخراج النص من الرد"
          else "Cannot extract text from response"

/-- `save_report` (report_handlers.py:466), the persistence slice of the
report-creation wizard's final step: resolve the user's department, run
`validate_report_creation`, then `create_report` with status `'submitted'`
or `'draft'` according to the pressed button.  `none` in the second
component means nothing was persisted. -/
def save_report (db : DB) (uid : Nat) (title content report_type : String)
    (submit : Bool) (now : Nat) : DB × Option Nat :=
  match get_user_department db uid with
  | none => (db, none)
  | some user_dept =>
    if user_dept == 0 then (db, none)
    else
      match validate_report_creation db uid (some user_dept) with
      | (false, _) => (db, none)
      | (true, _) =>
        let status := if submit then "submitted" else "draft"
        let res := create_report db title content report_type uid (some user_dept)
          status "normal" now
        (res.1, some res.2)

/-- `approve_report_command` (report_handlers.py:709) and the equivalent
`approve_button_callback`: permission check, then an approval record plus
an unconditional status update to `'approved'`.  The Bool reports whether
the approval was performed; `none` models a hung hierarchy query. -/
def approve_report_command (db : DB) (uid report_id : Nat) (fuel now : Nat) :
    Option (DB × Bool) :=
  match can_approve_report db uid report_id fuel with
  | none => none
  | some false => some (db, false)
  | some true =>
    let db1 := add_approval db report_id uid "approved" now
    let db2 := (update_report_status db1 report_id "approved" now).1
    some (db2, true)

/-- `get_hierarchical_reports` (database_enhanced.py:488): reports of the
department subtree, inner-joined with submitter and department, optionally
filtered by status and submission-date range.  An empty subtree makes the
generated SQL read `IN ()`, a syntax error (`OperationalError`), modelled
as `none`; the `ORDER BY` clause only permutes rows and is not modelled.
Each report is paired with its department's name (the joined `dept_name`
column). -/
def get_hierarchical_reports (db : DB) (dept_id : Nat) (start_date end_date : Option Nat)
    (status : Option String) (fuel : Nat) : Option (List (ReportRow × String)) :=
  match get_department_hierarchy db dept_id fuel with
  | none => none
  | some dept_ids =>
    if dept_ids.isEmpty then none
    else
      some ((db.reports.filter (fun r =>
          (match r.department_id with
           | some d => dept_ids.contains d
           | none => false) &&
          (match status with
           | some s => r.status == s
           | none => true) &&
          (match start_date with
           | some sd => match r.submitted_at with
             | some t => decide (sd ≤ t)
             | none => false
           | none => true) &&
          (match end_date with
           | some ed => match r.submitted_at with
             | some t => decide (t ≤ ed)
             | none => false
           | none => true))).filterMap (fun r =>
        (db.users.find? (fun u => u.user_id == r.submitted_by)).bind (fun _u =>
          (r.department_id.bind (fun d =>
            db.departments.find? (fun dd => dd.id == d))).map (fun dd => (r, dd.name)))))

/-- `cumulative_period_handler` (report_handlers.py:857), the persistence
slice after the period button is pressed: gather the approved reports of
the user's department subtree in the date range, concatenate their
contents for the summarization request (the external service's answer to
it is the parameter `resp`), and UNCONDITIONALLY persist whatever string
`summarize_text` returns as a new cumulative report.  Results: `none` = the handler
raises (missing department makes the SQL `IN ()` ill-formed) or the
hierarchy query hangs; `some (db, none)` = "no approved reports" message,
nothing persisted; `some (db', some rid)` = cumulative report `rid`
persisted. -/
def cumulative_period_handler (db : DB) (uid : Nat) (period : String)
    (start_date end_date : Option Nat) (resp : GeminiResponse) (fuel now : Nat) :
    Option (DB × Option Nat) :=
  match get_user_department db uid with
  | none => none
  | some user_dept =>
    match get_hierarchical_reports db user_dept start_date end_date (some "approved") fuel with
    | none => none
    | some reports =>
      if reports.isEmpty then some (db, none)
      else
        let _combined_text := String.intercalate "\n\n---\n\n"
          (reports.map (fun rd => "تقرير من " ++ rd.2 ++ ":\n" ++ rd.1.content))
        let summary := summarize_text resp "ar"
        let res := create_cumulative_report db ("تقرير تجميعي - " ++ period)
          (reports.map (fun rd => rd.1.id)) "summary" period uid (some user_dept)
          summary start_date end_date now
        some (res.1, some res.2)

/-- The report operations the running system performs, at handler level:
the creation wizard's final step (`save_report`), the approve
command/button, and the cumulative-report handler.  These are the only
call sites of `create_report`, `create_cumulative_report` and
`update_report_status` (the latter is invoked solely with `'approved'`;
no code path passes `'rejected'` or re-submits a draft). -/
inductive ReportOp
  | save (uid : Nat) (title content report_type : String) (submit : Bool) (now : Nat)
  | approve (uid report_id fuel now : Nat)
  | cumulative (uid : Nat) (period : String) (start_date end_date : Option Nat)
      (resp : GeminiResponse) (fuel now : Nat)

/-- Effect of one report operation on the database (a raising or hanging
handler leaves the state unchanged). -/
def applyOp (db : DB) : ReportOp → DB
  | .save uid title content report_type submit now =>
    (save_report db uid title content report_type submit now).1
  | .approve uid report_id fuel now =>
    match approve_report_command db uid report_id fuel now with
    | some res => res.1
    | none => db
  | .cumulative uid period start_date end_date resp fuel now =>
    match cumulative_period_handler db uid period start_date end_date resp fuel now with
    | some res => res.1
    | none => db

/-- States reachable from `init` through the report operations. -/
inductive ReachableFrom (init : DB) : DB → Prop
  | refl : ReachableFrom init init
  | step {s : DB} (op : ReportOp) : ReachableFrom init s → ReachableFrom init (applyOp s op)

/-- The status portion of claim C6 as a state predicate: every report is in
draft, submitted or approved, and no cumulative report is in draft. -/
def ReportStatusInvariant (db : DB) : Prop :=
  ∀ r ∈ db.reports,
    (r.status = "draft" ∨ r.status = "submitted" ∨ r.status = "approved") ∧
    (r.is_cumulative = true → r.status ≠ "draft")

/-- The transition relation asserted by the spec: draft→submitted,
submitted→approved, submitted→rejected. -/
def claimedTransition (a b : String) : Prop :=
  (a = "draft" ∧ b = "submitted") ∨ (a = "submitted" ∧ b = "approved") ∨
  (a = "submitted" ∧ b = "rejected")

/- Concrete fixtures: the role catalog created by
scripts/migrate_database.py and small database states used as witnesses
and counterexamples. -/

/-- Catalog role `employee` (level 10). -/
def roleEmployee : RoleRow :=
  { id := 1
    name := "employee"
    name_ar := "موظف"
    description := "Basic employee - can create and view own reports"
    level := 10
    permissions := { noPerms with can_create_report := true, can_view_own := true }
    description_permissions := noPerms }

/-- Catalog role `manager` (level 50). -/
def roleManager : RoleRow :=
  { id := 2
    name := "manager"
    name_ar := "مدير"
    description := "Department manager - can view and approve department reports"
    level := 50
    permissions :=
      { noPerms with
          can_create_report := true
          can_view_own := true
          can_view_department := true
          can_approve := true }
    description_permissions := noPerms }

/-- Catalog role `upper_manager` (level 70). -/
def roleUpperManager : RoleRow :=
  { id := 3
    name := "upper_manager"
    name_ar := "مدير أعلى"
    description := "Upper management - can view hierarchical reports and create cumulative reports"
    level := 70
    permissions :=
      { noPerms with
          can_create_report := true
          can_view_own := true
          can_view_department := true
          can_view_subdepartments := true
          can_approve := true
          can_create_cumulative := true }
    description_permissions := noPerms }

/-- Catalog role `admin` (level 99). -/
def roleAdmin : RoleRow :=
  { id := 4
    name := "admin"
    name_ar := "مسؤول النظام"
    description := "System administrator - full access"
    level := 99
    permissions :=
      { noPerms with
          can_create_report := true
          can_view_all := true
          can_approve := true
          can_create_cumulative := true
          can_manage_users := true
          can_manage_departments := true }
    description_permissions := noPerms }

/-- The default role catalog. -/
def catalogRoles : List RoleRow := [roleEmployee, roleManager, roleUpperManager, roleAdmin]

/-- Main example state: departments A (id 1, root, active), B (id 2, child
of A, active), C (id 3, root, INACTIVE); employee 10 in B, manager 20 in B,
upper-manager 30 in A, admin 40, deactivated employee 50 in B; reports 1
(by 10, B, submitted), 2 (by 50, C, submitted), 3 (by 50, B, submitted),
4 (by 10, B, approved). -/
def exDB : DB :=
  { users := [⟨10, true⟩, ⟨20, true⟩, ⟨30, true⟩, ⟨40, true⟩, ⟨50, false⟩]
    departments :=
      [⟨1, "A", none, 0, true⟩, ⟨2, "B", some 1, 1, true⟩, ⟨3, "C", none, 0, false⟩]
    roles := catalogRoles
    user_roles :=
      [⟨10, 1, some 2, true, true, none, 0⟩,
       ⟨20, 2, some 2, true, true, none, 0⟩,
       ⟨30, 3, some 1, true, true, none, 0⟩,
       ⟨40, 4, none, true, true, none, 0⟩,
       ⟨50, 1, some 2, true, true, none, 0⟩]
    reports :=
      [⟨1, "t1", "c1", "daily", "submitted", "normal", "department", 10, some 2, false,
        none, none, none, none, none, some 3⟩,
       ⟨2, "t2", "c2", "daily", "submitted", "normal", "department", 50, some 3, false,
        none, none, none, none, none, some 3⟩,
       ⟨3, "t3", "c3", "daily", "submitted", "normal", "department", 50, some 2, false,
        none, none, none, none, none, some 3⟩,
       ⟨4, "t4", "c4", "daily", "approved", "normal", "department", 10, some 2, false,
        none, none, none, none, none, some 5⟩]
    report_approvals := []
    report_aggregations := [] }

/-- Malformed department table with a parent-link cycle 1 ↔ 2. -/
def cycDB : DB :=
  { users := []
    departments := [⟨1, "A", some 2, 0, true⟩, ⟨2, "B", some 1, 1, true⟩]
    roles := catalogRoles
    user_roles := []
    reports := []
    report_approvals := []
    report_aggregations := [] }

/-- State with a dangling role/report department reference: manager 20's
assignment and report 1 both point at department id 42, which is absent
from the department table (SQLite does not enforce the foreign key by
default). -/
def exDB8 : DB :=
  { users := [⟨20, true⟩, ⟨50, true⟩]
    departments := [⟨1, "A", none, 0, true⟩]
    roles := catalogRoles
    user_roles := [⟨20, 2, some 42, true, true, none, 0⟩]
    reports :=
      [⟨1, "t1", "c1", "daily", "submitted", "normal", "department", 50, some 42, false,
        none, none, none, none, none, some 3⟩]
    report_approvals := []
    report_aggregations := [] }

/-- State with an existing (user 20, manager, department 2) assignment row
that a re-assignment will collide with; the row is inactive and
non-primary so the in-place update is observable. -/
def exDB9 : DB :=
  { users := [⟨20, true⟩, ⟨40, true⟩]
    departments := [⟨1, "A", none, 0, true⟩, ⟨2, "B", some 1, 1, true⟩]
    roles := catalogRoles
    user_roles := [⟨20, 2, some 2, false, false, none, 0⟩]
    reports := []
    report_approvals := []
    report_aggregations := [] }

/-- Initial state for the report state machine: `exDB` with no reports. -/
def exC6init : DB := { exDB with reports := [] }

/-- Employee 10 saves a report as a draft. -/
def exC6op1 : ReportOp := ReportOp.save 10 "t" "c" "daily" false 1

/-- Manager 20 approves report 1 (which is still a draft). -/
def exC6op2 : ReportOp := ReportOp.approve 20 1 10 2

/-- State after the draft is saved. -/
def exC6s1 : DB := applyOp exC6init exC6op1

/-- State after the draft is approved. -/
def exC6s2 : DB := applyOp exC6s1 exC6op2

/-- A summarization response blocked by the safety policy
(finish_reason 2). -/
def blockedResp : GeminiResponse := ⟨[⟨2, none, none⟩]⟩

/-- The `get_user_roles` row of upper-manager 30 in `exDB` (their primary
role). -/
def exUpperRoleInfo : UserRoleInfo :=
  { role_id := 3
    role_name := "upper_manager"
    role_name_ar := "مدير أعلى"
    level := 70
    permissions := roleUpperManager.permissions
    department_id := some 1
    department_name := some "A" }

theorem mem_ordInsert (le : α → α → Bool) (a b : α) (l : List α) :
    a ∈ ordInsert le b l ↔ a = b ∨ a ∈ l := by
  induction l with
  | nil => simp [ordInsert]
  | cons c l ih =>
    simp only [ordInsert]
    split
    · simp [List.mem_cons]
    · simp only [List.mem_cons, ih]
      tauto

theorem mem_orderBy (le : α → α → Bool) (a : α) (l : List α) :
    a ∈ orderBy le l ↔ a ∈ l := by
  induction l with
  | nil => simp [orderBy]
  | cons c l ih =>
    simp only [orderBy, List.foldr_cons] at *
    rw [mem_ordInsert, ih, List.mem_cons]

theorem cteRun_mem_closed (depts : List DeptRow) :
    ∀ (fuel : Nat) (queue L : List Nat), cteRun depts queue fuel = some L →
      (∀ x ∈ queue, x ∈ L) ∧ (∀ x ∈ L, ∀ c ∈ childIds depts x, c ∈ L) := by
  intro fuel
  induction fuel with
  | zero =>
    intro queue L h
    cases queue with
    | nil =>
      simp only [cteRun] at h
      cases h
      constructor
      · intro x hx; cases hx
      · intro x hx; cases hx
    | cons a q => simp only [cteRun] at h; exact Option.noConfusion h
  | succ f ih =>
    intro queue L h
    cases queue with
    | nil =>
      simp only [cteRun] at h
      cases h
      constructor
      · intro x hx; cases hx
      · intro x hx; cases hx
    | cons a q =>
      simp only [cteRun, Option.map_eq_some'] at h
      obtain ⟨L', hL', rfl⟩ := h
      obtain ⟨hq, hcl⟩ := ih (q ++ childIds depts a) L' hL'
      constructor
      · intro x hx
        rcases List.mem_cons.mp hx with rfl | hx
        · exact List.mem_cons_self _ _
        · exact List.mem_cons_of_mem _ (hq x (List.mem_append_left _ hx))
      · intro x hx c hc
        rcases List.mem_cons.mp hx with rfl | hx
        · exact List.mem_cons_of_mem _ (hq c (List.mem_append_right _ hc))
        · exact List.mem_cons_of_mem _ (hcl x hx c hc)

theorem cteRun_sound (depts : List DeptRow) (root : Nat) :
    ∀ (fuel : Nat) (queue L : List Nat), cteRun depts queue fuel = some L →
      (∀ y ∈ queue, Desc depts root y) → ∀ x ∈ L, Desc depts root x := by
  intro fuel
  induction fuel with
  | zero =>
    intro queue L h hq x hx
    cases queue with
    | nil => simp only [cteRun] at h; cases h; cases hx
    | cons a q => simp only [cteRun] at h; exact Option.noConfusion h
  | succ f ih =>
    intro queue L h hq x hx
    cases queue with
    | nil => simp only [cteRun] at h; cases h; cases hx
    | cons a q =>
      simp only [cteRun, Option.map_eq_some'] at h
      obtain ⟨L', hL', rfl⟩ := h
      rcases List.mem_cons.mp hx with rfl | hx
      · exact hq x (List.mem_cons_self _ _)
      · refine ih (q ++ childIds depts a) L' hL' ?_ x hx
        intro y hy
        rcases List.mem_append.mp hy with hy | hy
        · exact hq y (List.mem_cons_of_mem _ hy)
        · exact Desc.step (hq a (List.mem_cons_self _ _)) hy

/-- Bridge: when the hierarchy CTE terminates, its output is exactly the
descendant closure of the seed department. -/
theorem hierarchy_mem_iff (db : DB) (root : Nat) (fuel : Nat) (L : List Nat)
    (h : get_department_hierarchy db root fuel = some L) :
    ∀ x, x ∈ L ↔ Desc db.departments root x := by
  unfold get_department_hierarchy at h
  have hbase : ∀ y ∈ (db.departments.filter (fun d => d.id == root)).map (fun d => d.id),
      Desc db.departments root y := by
    intro y hy
    obtain ⟨d, hd, rfl⟩ := List.mem_map.mp hy
    obtain ⟨hdm, hdid⟩ := List.mem_filter.mp hd
    have hdr : d.id = root := by simpa using hdid
    rw [hdr]
    exact Desc.refl ⟨d, hdm, hdr⟩
  obtain ⟨hqmem, hclosed⟩ := cteRun_mem_closed db.departments fuel _ L h
  intro x
  constructor
  · exact cteRun_sound db.departments root fuel _ L h hbase x
  · intro hx
    induction hx with
    | refl hroot =>
      obtain ⟨d, hd, hdr⟩ := hroot
      refine hqmem root ?_
      refine List.mem_map.mpr ⟨d, List.mem_filter.mpr ⟨hd, by simpa using hdr⟩, hdr⟩
    | step hp hc ihp => exact hclosed _ ihp _ hc

theorem cycDB_cteRun_none : ∀ fuel : Nat,
    cteRun cycDB.departments [1] fuel = none ∧ cteRun cycDB.departments [2] fuel = none := by
  intro fuel
  induction fuel with
  | zero => exact ⟨rfl, rfl⟩
  | succ f ih =>
    constructor
    · show (cteRun cycDB.departments [2] f).map (fun rest => 1 :: rest) = none
      rw [ih.2]; rfl
    · show (cteRun cycDB.departments [1] f).map (fun rest => 2 :: rest) = none
      rw [ih.1]; rfl

/-- C2: refuted as stated — `get_department_hierarchy` does NOT terminate on
malformed data: on the two-department parent cycle the recursive
`UNION ALL` CTE never drains its queue, so for every bound on the number of
row extractions the query is still running; nothing bounds traversal by the
department count. -/
theorem C2_hierarchy_diverges_on_cycle :
    ∀ fuel : Nat, get_department_hierarchy cycDB 1 fuel = none := by
  intro fuel
  show cteRun cycDB.departments [1] fuel = none
  exact (cycDB_cteRun_none fuel).1

/-- C3: evaluating `can_assign_role` at concrete inputs.  An active admin
(user 40) holding the manage-users capability asks to grant the `admin`
role (equal rank — the spec demands a rejection) or the `employee` role
(lower rank — the spec demands an allow): both calls raise
`KeyError('level')` (modelled as `none`) instead of returning, because the
surviving second definition of `get_role_by_name` returns a dict without a
`level` key. -/
theorem C3_can_assign_role_raises :
    can_assign_role exDB 40 10 "admin" (some 1) = none ∧
    can_assign_role exDB 40 10 "employee" (some 2) = none := by decide

/-- C5, counterexample: user 50 exists and submitted report 3, the report
row resolves, yet `can_view_report` denies — the user has been
deactivated, and the active-flag guard runs before the owner check. -/
theorem C5_counterexample :
    (get_user exDB 50).isSome = true ∧
    (get_report exDB 3).isSome = true ∧
    ((exDB.reports.find? (fun r => r.id == 3)).map (fun r => r.submitted_by)) = some 50 ∧
    can_view_report exDB 50 3 10 = some false := by decide

/-- C5, amended: an ACTIVE user whose report row resolves (submitter and
department exist) can always view their own report, regardless of the
report's visibility or department. -/
theorem C5_owner_views_own_report (db : DB) (uid rid fuel : Nat) (u : UserRow)
    (rep : ReportInfo) (hu : get_user db uid = some u) (ha : u.is_active = true)
    (hr : get_report db rid = some rep) (hs : rep.submitted_by = uid) :
    can_view_report db uid rid fuel = some true := by
  simp [can_view_report, hu, ha, hr, hs]

/-- Witness for C5: active employee 10 viewing their own report 1. -/
theorem C5_witness : can_view_report exDB 10 1 10 = some true :=
  C5_owner_views_own_report exDB 10 1 10 ⟨10, true⟩
    { id := 1, title := "t1", content := "c1", report_type := "daily",
      status := "submitted", priority := "normal", visibility := "department",
      submitted_by := 10, department_id := some 2, is_cumulative := false,
      submitted_at := some 3, submitter_name := "", department_name := "B" }
    (by decide) rfl (by decide) rfl

/-- C7: evaluating the cumulative-report flow at a policy-blocked
summarization response.  `summarize_text` maps the block to the fixed
rejection message, but `cumulative_period_handler` persists that very
string as the content of a brand-new cumulative report row (id 5, status
`submitted`): the failure is not surfaced as an error state and a row IS
created from the failed call. -/
theorem C7_blocked_summary_persisted :
    summarize_text blockedResp "ar" = safetyBlockMsgAr ∧
    exDB.reports.length = 4 ∧
    (cumulative_period_handler exDB 30 "weekly" (some 0) (some 100) blockedResp 10 99).map
      (fun res => (res.2, res.1.reports.length,
        (res.1.reports.find? (fun r => r.id == 5)).map
          (fun r => (r.content, r.is_cumulative, r.status)))) =
    some (some 5, 5, some (safetyBlockMsgAr, true, "submitted")) := by decide

theorem get_user_deactivated (db : DB) (uid : Nat) :
    get_user (deactivate_user db uid).1 uid = none ∨
      ∃ u, get_user (deactivate_user db uid).1 uid = some u ∧ u.is_active = false := by
  unfold get_user deactivate_user
  simp only
  rw [List.find?_map]
  have hp : ((fun u : UserRow => u.user_id == uid) ∘
      (fun u : UserRow => if u.user_id == uid then { u with is_active := false } else u)) =
      fun u : UserRow => u.user_id == uid := by
    funext u
    by_cases h : u.user_id = uid <;> simp [h]
  rw [hp]
  cases hfind : db.users.find? (fun u => u.user_id == uid) with
  | none => left; rfl
  | some u =>
    right
    have hpred := List.find?_some hfind
    have heq : u.user_id = uid := by simpa using hpred
    refine ⟨{ u with is_active := false }, ?_, rfl⟩
    simp [heq]

/-- C10: after `deactivate_user`, every AccessControl check for that user
denies and the accessible-department set is empty, while the user's role
assignment rows are untouched — each checker tests the requester's active
flag before any role or permission lookup. -/
theorem C10_deactivation_locks_out (db : DB) (uid rid fuel : Nat) :
    can_create_report (deactivate_user db uid).1 uid = false ∧
    can_view_report (deactivate_user db uid).1 uid rid fuel = some false ∧
    can_approve_report (deactivate_user db uid).1 uid rid fuel = some false ∧
    can_create_cumulative_report (deactivate_user db uid).1 uid = false ∧
    can_manage_users (deactivate_user db uid).1 uid = false ∧
    can_manage_departments (deactivate_user db uid).1 uid = false ∧
    is_admin (deactivate_user db uid).1 uid = false ∧
    is_manager (deactivate_user db uid).1 uid = false ∧
    get_accessible_departments (deactivate_user db uid).1 uid fuel = some [] ∧
    (deactivate_user db uid).1.user_roles = db.user_roles := by
  rcases get_user_deactivated db uid with h | ⟨u, h, hia⟩
  · exact ⟨by simp [can_create_report, h], by simp [can_view_report, h],
      by simp [can_approve_report, h], by simp [can_create_cumulative_report, h],
      by simp [can_manage_users, h], by simp [can_manage_departments, h],
      by simp [is_admin, h], by simp [is_manager, h],
      by simp [get_accessible_departments, h], rfl⟩
  · exact ⟨by simp [can_create_report, h, hia], by simp [can_view_report, h, hia],
      by simp [can_approve_report, h, hia], by simp [can_create_cumulative_report, h, hia],
      by simp [can_manage_users, h, hia], by simp [can_manage_departments, h, hia],
      by simp [is_admin, h, hia], by simp [is_manager, h, hia],
      by simp [get_accessible_departments, h, hia], rfl⟩

theorem can_access_department_spec (db : DB) (uid : Nat) (dept : Option Nat) (fuel : Nat)
    (b : Bool) (h : can_access_department db uid dept fuel = some b) :
    b = true ↔ ∃ role, get_user_primary_role db uid = some role ∧
      (role.role_name = "admin" ∨
       ∃ ud, role.department_id = some ud ∧ ud ≠ 0 ∧
         (dept = some ud ∨
          (role.permissions.can_view_subdepartments = true ∧
           ∃ d, dept = some d ∧ Desc db.departments ud d))) := by
  unfold can_access_department at h
  cases hrole : get_user_primary_role db uid with
  | none =>
    rw [hrole] at h
    simp only [Option.some.injEq] at h
    subst h
    simp
  | some role =>
    rw [hrole] at h
    simp only at h
    by_cases hadm : role.role_name = "admin"
    · simp only [hadm, beq_self_eq_true, if_true, Option.some.injEq] at h
      subst h
      simp only [true_iff]
      exact ⟨role, rfl, Or.inl hadm⟩
    · have hadmb : (role.role_name == "admin") = false := by simpa using hadm
      rw [hadmb] at h
      simp only [Bool.false_eq_true, if_false] at h
      cases hdept : role.department_id with
      | none =>
        rw [hdept] at h
        simp only [Option.some.injEq] at h
        subst h
        simp only [Bool.false_eq_true, false_iff]
        rintro ⟨role', hrole', hcase⟩
        cases hrole'
        rcases hcase with h1 | ⟨ud, hud, _, _⟩
        · exact hadm h1
        · rw [hdept] at hud; exact Option.noConfusion hud
      | some ud =>
        rw [hdept] at h
        simp only at h
        by_cases hz : ud = 0
        · subst hz
          simp only [beq_self_eq_true, if_true, Option.some.injEq] at h
          subst h
          simp only [Bool.false_eq_true, false_iff]
          rintro ⟨role', hrole', hcase⟩
          cases hrole'
          rcases hcase with h1 | ⟨ud', hud', hz', _⟩
          · exact hadm h1
          · rw [hdept] at hud'
            injection hud' with hud''
            exact hz' hud''.symm
        · have hzb : (ud == 0) = false := by simpa using hz
          rw [hzb] at h
          simp only [Bool.false_eq_true, if_false] at h
          by_cases hsame : dept = some ud
          · simp only [hsame, beq_self_eq_true, if_true, Option.some.injEq] at h
            subst h
            simp only [true_iff]
            exact ⟨role, rfl, Or.inr ⟨ud, hdept, hz, Or.inl hsame⟩⟩
          · have hsameb : (dept == some ud) = false := by simpa using hsame
            rw [hsameb] at h
            simp only [Bool.false_eq_true, if_false] at h
            cases hflag : role.permissions.can_view_subdepartments with
            | false =>
              rw [hflag] at h
              simp only [Bool.false_eq_true, if_false, Option.some.injEq] at h
              subst h
              simp only [Bool.false_eq_true, false_iff]
              rintro ⟨role', hrole', hcase⟩
              cases hrole'
              rcases hcase with h1 | ⟨ud', hud', _, hrest⟩
              · exact hadm h1
              · rw [hdept] at hud'
                injection hud' with hud''
                subst hud''
                rcases hrest with h2 | ⟨hf, _⟩
                · exact hsame h2
                · rw [hflag] at hf; exact Bool.noConfusion hf
            | true =>
              rw [hflag] at h
              simp only [if_true] at h
              obtain ⟨L, hL, hb⟩ := Option.map_eq_some'.mp h
              constructor
              · intro hbt
                subst hbt
                cases hdval : dept with
                | none =>
                  rw [hdval] at hb
                  exact absurd hb (by simp)
                | some d =>
                  rw [hdval] at hb
                  have hdL : d ∈ L := by simpa using hb
                  exact ⟨role, rfl, Or.inr ⟨ud, hdept, hz,
                    Or.inr ⟨hflag, d, rfl, (hierarchy_mem_iff db ud fuel L hL d).mp hdL⟩⟩⟩
              · rintro ⟨role', hrole', hcase⟩
                cases hrole'
                rcases hcase with h1 | ⟨ud', hud', _, hrest⟩
                · exact absurd h1 hadm
                · rw [hdept] at hud'
                  injection hud' with hud''
                  subst hud''
                  rcases hrest with h2 | ⟨_, d, hdeq, hdesc⟩
                  · exact absurd h2 hsame
                  · have hdL : d ∈ L := (hierarchy_mem_iff db ud fuel L hL d).mpr hdesc
                    rw [hdeq] at hb
                    rw [← hb]
                    simpa using hdL

/-- C4, counterexample: admin 40 may approve report 2 even though the
report's department (id 3) is inactive and therefore NOT in the admin's
accessible-department set — `can_approve_report` consults
`can_access_department` (admin ⇒ any department), not the
accessible-departments set, so the claimed "if and only if" fails. -/
theorem C4_counterexample :
    can_approve_report exDB 40 2 10 = some true ∧
    ((exDB.reports.find? (fun r => r.id == 2)).map (fun r => r.department_id)) =
      some (some 3) ∧
    (get_accessible_departments exDB 40 10).map (fun L => L.contains 3) = some false := by
  decide

/-- C4, amended: whenever `can_approve_report` returns, it returns true iff
the requester is active, holds the approve capability, the report row
loads, the requester is not its submitter, and the requester CAN ACCESS the
report's department in the `can_access_department` sense — admin: any
department (active or not); otherwise the primary role's own department or,
with subtree visibility, any department in its descendant closure. -/
theorem C4_approve_characterization (db : DB) (uid rid fuel : Nat) (b : Bool)
    (h : can_approve_report db uid rid fuel = some b) :
    b = true ↔
      ((∃ v, get_user db uid = some v ∧ v.is_active = true) ∧
       has_permission db uid (fun p => p.can_approve) = true ∧
       (∃ rep, get_report db rid = some rep ∧ rep.submitted_by ≠ uid ∧
         (∃ role, get_user_primary_role db uid = some role ∧
           (role.role_name = "admin" ∨
            ∃ ud, role.department_id = some ud ∧ ud ≠ 0 ∧
              (rep.department_id = some ud ∨
               (role.permissions.can_view_subdepartments = true ∧
                ∃ d, rep.department_id = some d ∧ Desc db.departments ud d)))))) := by
  unfold can_approve_report at h
  cases hu : get_user db uid with
  | none =>
    rw [hu] at h
    simp only [Option.some.injEq] at h
    subst h
    simp
  | some u =>
    rw [hu] at h
    simp only at h
    cases hact : u.is_active with
    | false =>
      rw [hact] at h
      simp only [Bool.not_false, if_true, Option.some.injEq] at h
      subst h
      simp only [Bool.false_eq_true, false_iff]
      rintro ⟨⟨u', hu', hact'⟩, _⟩
      cases hu'
      rw [hact] at hact'
      exact Bool.noConfusion hact'
    | true =>
      rw [hact] at h
      simp only [Bool.not_true, Bool.false_eq_true, if_false] at h
      cases hperm : has_permission db uid (fun p => p.can_approve) with
      | false =>
        rw [hperm] at h
        simp only [Bool.not_false, if_true, Option.some.injEq] at h
        subst h
        simp
      | true =>
        rw [hperm] at h
        simp only [Bool.not_true, Bool.false_eq_true, if_false] at h
        cases hrep : get_report db rid with
        | none =>
          rw [hrep] at h
          simp only [Option.some.injEq] at h
          subst h
          simp
        | some rep =>
          rw [hrep] at h
          simp only at h
          by_cases hsub : rep.submitted_by = uid
          · simp only [hsub, beq_self_eq_true, if_true, Option.some.injEq] at h
            subst h
            simp only [Bool.false_eq_true, false_iff]
            rintro ⟨_, _, rep', hrep', hsub', _⟩
            cases hrep'
            exact hsub' hsub
          · have hsubb : (rep.submitted_by == uid) = false := by simpa using hsub
            rw [hsubb] at h
            simp only [Bool.false_eq_true, if_false] at h
            rw [can_access_department_spec db uid rep.department_id fuel b h]
            constructor
            · intro hacc
              exact ⟨⟨u, rfl, hact⟩, rfl, rep, rfl, hsub, hacc⟩
            · rintro ⟨_, _, rep', hrep', _, hacc⟩
              cases hrep'
              exact hacc

/-- Witness for C4: manager 20 approving employee 10's report 1 in their
shared department B. -/
theorem C4_witness :
    true = true ↔
      ((∃ v, get_user exDB 20 = some v ∧ v.is_active = true) ∧
       has_permission exDB 20 (fun p => p.can_approve) = true ∧
       (∃ rep, get_report exDB 1 = some rep ∧ rep.submitted_by ≠ 20 ∧
         (∃ role, get_user_primary_role exDB 20 = some role ∧
           (role.role_name = "admin" ∨
            ∃ ud, role.department_id = some ud ∧ ud ≠ 0 ∧
              (rep.department_id = some ud ∨
               (role.permissions.can_view_subdepartments = true ∧
                ∃ d, rep.department_id = some d ∧ Desc exDB.departments ud d)))))) :=
  C4_approve_characterization exDB 20 1 10 true (by decide)

theorem Desc.id_in_table {depts : List DeptRow} {root x : Nat}
    (h : Desc depts root x) : ∃ row ∈ depts, row.id = x := by
  induction h with
  | refl hroot => exact hroot
  | step _ hc _ =>
    rename_i c _
    obtain ⟨row, hrow, hid⟩ := List.mem_map.mp hc
    exact ⟨row, (List.mem_filter.mp hrow).1, hid⟩

theorem get_report_none_of_bad_department (db : DB) (rid : Nat) (rep : ReportRow)
    (hfind : db.reports.find? (fun r => r.id == rid) = some rep)
    (hbad : rep.department_id = none ∨
      ∀ d, rep.department_id = some d →
        db.departments.find? (fun dd => dd.id == d) = none) :
    get_report db rid = none := by
  unfold get_report
  rw [hfind]
  simp only [Option.bind_eq_bind, Option.some_bind]
  cases hjoin : db.users.find? (fun u => u.user_id == rep.submitted_by) with
  | none => rfl
  | some u =>
    simp only [Option.some_bind]
    rcases hbad with hnone | hdangling
    · rw [hnone]; rfl
    · cases hdep : rep.department_id with
      | none => rfl
      | some d =>
        simp only [Option.some_bind]
        rw [hdangling d hdep]
        rfl

/-- C8, counterexample: report 1's department id 42 resolves to no
department, and user 20 is no admin, yet `can_access_department` ALLOWS
(user 20's own role assignment dangles at the same id 42, and the
same-department equality fires before any existence check); only
`can_view_report` denies. -/
theorem C8_counterexample :
    ((exDB8.reports.find? (fun r => r.id == 1)).map (fun r => r.department_id)) =
      some (some 42) ∧
    exDB8.departments.all (fun d => d.id != 42) = true ∧
    is_admin exDB8 20 = false ∧
    can_view_report exDB8 20 1 10 = some false ∧
    can_access_department exDB8 20 (some 42) 10 = some true := by decide

/-- C8, amended: a report whose department reference is null or dangling is
never viewable — `can_view_report` returns false for EVERY user because the
report row fails to load.  `can_access_department` denies a null department
to every non-admin, and denies a dangling department id to every non-admin
whose own primary-role department is not that same dangling id (the one
escape shown in the counterexample). -/
theorem C8_bad_department_denied :
    (∀ (db : DB) (uid rid fuel : Nat) (rep : ReportRow),
       db.reports.find? (fun r => r.id == rid) = some rep →
       (rep.department_id = none ∨
        ∀ d, rep.department_id = some d →
          db.departments.find? (fun dd => dd.id == d) = none) →
       can_view_report db uid rid fuel = some false) ∧
    (∀ (db : DB) (uid fuel : Nat),
       (∀ role, get_user_primary_role db uid = some role → role.role_name ≠ "admin") →
       can_access_department db uid none fuel ≠ some true) ∧
    (∀ (db : DB) (uid d fuel : Nat),
       (∀ role, get_user_primary_role db uid = some role → role.role_name ≠ "admin") →
       db.departments.find? (fun dd => dd.id == d) = none →
       (∀ role, get_user_primary_role db uid = some role → role.department_id ≠ some d) →
       can_access_department db uid (some d) fuel ≠ some true) := by
  refine ⟨?_, ?_, ?_⟩
  · intro db uid rid fuel rep hfind hbad
    have hrep := get_report_none_of_bad_department db rid rep hfind hbad
    unfold can_view_report
    cases hu : get_user db uid with
    | none => rfl
    | some u =>
      cases hact : u.is_active with
      | false => simp [hact]
      | true => simp [hact, hrep]
  · intro db uid fuel hnonadmin heq
    have hiff := can_access_department_spec db uid none fuel true heq
    obtain ⟨role, hrole, hcase⟩ := hiff.mp rfl
    rcases hcase with h1 | ⟨ud, _, _, hin | ⟨_, d, hin, _⟩⟩
    · exact hnonadmin role hrole h1
    · exact Option.noConfusion hin
    · exact Option.noConfusion hin
  · intro db uid d fuel hnonadmin hmiss hnotown heq
    have hiff := can_access_department_spec db uid (some d) fuel true heq
    obtain ⟨role, hrole, hcase⟩ := hiff.mp rfl
    rcases hcase with h1 | ⟨ud, hud, _, hin | ⟨_, d', hin, hdesc⟩⟩
    · exact hnonadmin role hrole h1
    · injection hin with hdu
      exact hnotown role hrole (hdu ▸ hud)
    · injection hin with hdd
      subst hdd
      obtain ⟨row, hrow, hid⟩ := hdesc.id_in_table
      have := List.find?_eq_none.mp hmiss row hrow
      simp [hid] at this

/-- Witness for C8: the three denial forms instantiated on `exDB8` —
viewing the dangling-department report 1 is denied for user 50, and
non-admin 20 is denied a null department and the dangling department 43
(distinct from their own dangling assignment 42). -/
theorem C8_witness :
    can_view_report exDB8 50 1 10 = some false ∧
    can_access_department exDB8 20 none 10 ≠ some true ∧
    can_access_department exDB8 20 (some 43) 10 ≠ some true :=
  ⟨C8_bad_department_denied.1 exDB8 50 1 10
      ⟨1, "t1", "c1", "daily", "submitted", "normal", "department", 50, some 42, false,
        none, none, none, none, none, some 3⟩
      (by decide)
      (Or.inr (by intro d hd; injection hd with h'; subst h'; decide)),
   C8_bad_department_denied.2.1 exDB8 20 10
      (by intro role h; cases h; decide),
   C8_bad_department_denied.2.2 exDB8 20 43 10
      (by intro role h; cases h; decide)
      (by decide)
      (by intro role h; cases h; decide)⟩

/-- C1: for an active user with a primary (highest-level active) role,
`get_accessible_departments` returns: admin ⇒ the ids of all active
departments; else, given the role's department `ud` (non-null, non-zero),
subtree visibility ⇒ exactly the descendant closure of `ud` (whenever the
hierarchy query returns), same-department visibility ⇒ exactly `[ud]`,
otherwise the empty set.  The spec's examples (manager at B gets `{B}`,
upper-manager at root A with child B gets `{A, B}`) instantiate the second
and first non-admin branches; see the witness. -/
theorem C1_accessible_departments_characterization (db : DB) (uid fuel : Nat)
    (u : UserRow) (role : UserRoleInfo)
    (hu : get_user db uid = some u) (ha : u.is_active = true)
    (hrole : get_user_primary_role db uid = some role) :
    (role.role_name = "admin" →
      ∃ L, get_accessible_departments db uid fuel = some L ∧
        ∀ x, x ∈ L ↔ ∃ dpt ∈ db.departments, dpt.is_active = true ∧ dpt.id = x) ∧
    (role.role_name ≠ "admin" → ∀ ud, role.department_id = some ud → ud ≠ 0 →
      ((role.permissions.can_view_subdepartments = true →
         ∀ L, get_accessible_departments db uid fuel = some L →
           ∀ x, x ∈ L ↔ Desc db.departments ud x) ∧
       (role.permissions.can_view_subdepartments = false →
         role.permissions.can_view_department = true →
         get_accessible_departments db uid fuel = some [ud]) ∧
       (role.permissions.can_view_subdepartments = false →
         role.permissions.can_view_department = false →
         get_accessible_departments db uid fuel = some []))) := by
  have hred : get_accessible_departments db uid fuel =
      (if role.role_name == "admin" then
        some ((get_all_departments db true).map (fun d => d.id))
      else
        match role.department_id with
        | none => some []
        | some user_dept =>
          if user_dept == 0 then some []
          else if role.permissions.can_view_subdepartments then
            get_department_hierarchy db user_dept fuel
          else if role.permissions.can_view_department then some [user_dept]
          else some []) := by
    unfold get_accessible_departments
    rw [hu]
    simp only
    rw [ha]
    simp only [Bool.not_true, Bool.false_eq_true, if_false]
    rw [hrole]
  constructor
  · intro hadmin
    have hnb : (role.role_name == "admin") = true := by simpa using hadmin
    rw [hred, hnb, if_pos rfl]
    refine ⟨_, rfl, ?_⟩
    intro x
    constructor
    · intro hx
      obtain ⟨dpt, hd, rfl⟩ := List.mem_map.mp hx
      have hd' : dpt ∈ db.departments.filter (fun d => d.is_active) := by
        unfold get_all_departments at hd
        rw [if_pos rfl] at hd
        exact (mem_orderBy _ _ _).mp hd
      obtain ⟨hmem, hact⟩ := List.mem_filter.mp hd'
      exact ⟨dpt, hmem, by simpa using hact, rfl⟩
    · rintro ⟨dpt, hmem, hact, rfl⟩
      refine List.mem_map.mpr ⟨dpt, ?_, rfl⟩
      unfold get_all_departments
      rw [if_pos rfl]
      exact (mem_orderBy _ _ _).mpr (List.mem_filter.mpr ⟨hmem, by simpa using hact⟩)
  · intro hnotadmin ud hud hud0
    have hnb : (role.role_name == "admin") = false := by simpa using hnotadmin
    have hz : (ud == 0) = false := by simpa using hud0
    have hred2 : get_accessible_departments db uid fuel =
        (if role.permissions.can_view_subdepartments then
          get_department_hierarchy db ud fuel
         else if role.permissions.can_view_department then some [ud]
         else some []) := by
      rw [hred, hnb]
      simp only [Bool.false_eq_true, if_false]
      rw [hud]
      simp only
      rw [hz]
      simp only [Bool.false_eq_true, if_false]
    refine ⟨?_, ?_, ?_⟩
    · intro hsub L hL x
      rw [hred2] at hL
      rw [hsub, if_pos rfl] at hL
      exact hierarchy_mem_iff db ud fuel L hL x
    · intro hsub hview
      rw [hred2, hsub, hview]
      simp
    · intro hsub hview
      rw [hred2, hsub, hview]
      simp

/-- Witness for C1: upper-manager 30 assigned to root department A (id 1,
with child B = id 2) in `exDB`; the theorem applies with their concrete
primary role. -/
theorem C1_witness :
    (exUpperRoleInfo.role_name = "admin" →
      ∃ L, get_accessible_departments exDB 30 10 = some L ∧
        ∀ x, x ∈ L ↔ ∃ dpt ∈ exDB.departments, dpt.is_active = true ∧ dpt.id = x) ∧
    (exUpperRoleInfo.role_name ≠ "admin" →
      ∀ ud, exUpperRoleInfo.department_id = some ud → ud ≠ 0 →
      ((exUpperRoleInfo.permissions.can_view_subdepartments = true →
         ∀ L, get_accessible_departments exDB 30 10 = some L →
           ∀ x, x ∈ L ↔ Desc exDB.departments ud x) ∧
       (exUpperRoleInfo.permissions.can_view_subdepartments = false →
         exUpperRoleInfo.permissions.can_view_department = true →
         get_accessible_departments exDB 30 10 = some [ud]) ∧
       (exUpperRoleInfo.permissions.can_view_subdepartments = false →
         exUpperRoleInfo.permissions.can_view_department = false →
         get_accessible_departments exDB 30 10 = some []))) :=
  C1_accessible_departments_characterization exDB 30 10 ⟨30, true⟩ exUpperRoleInfo
    (by decide) rfl (by decide)

/-- C9: assigning a role that duplicates an existing
(user, role, department) assignment row does not fail — `assign_role`
catches the UNIQUE violation, updates the existing row in place
(reactivating it and refreshing its primary flag, assigner and timestamp),
leaves the row count unchanged, and returns success. -/
theorem C9_duplicate_assignment_updated (db : DB) (uid : Nat) (rn : String) (d : Nat)
    (ab : Option Nat) (ip : Bool) (now : Nat) (role : RoleByName)
    (hrole : get_role_by_name db rn = some role)
    (hdup : ∃ ur ∈ db.user_roles, ur.user_id = uid ∧ ur.role_id = role.id ∧
      ur.department_id = some d) :
    (assign_role db uid rn (some d) ab ip now).2 = true ∧
    (assign_role db uid rn (some d) ab ip now).1.user_roles.length =
      db.user_roles.length ∧
    ∀ ur ∈ (assign_role db uid rn (some d) ab ip now).1.user_roles,
      ur.user_id = uid → ur.role_id = role.id → ur.department_id = some d →
        ur.is_active = true ∧ ur.is_primary = ip ∧ ur.assigned_by = ab ∧
        ur.assigned_at = now := by
  obtain ⟨ur0, hmem0, hk1, hk2, hk3⟩ := hdup
  have hconf : ((some d : Option Nat).isSome &&
      (if ip then
        db.user_roles.map (fun ur =>
          if ur.user_id == uid then { ur with is_primary := false } else ur)
      else db.user_roles).any
        (fun ur => ur.user_id == uid && ur.role_id == role.id &&
          ur.department_id == some d)) = true := by
    simp only [Option.isSome_some, Bool.true_and]
    by_cases hip : ip = true
    · rw [if_pos hip]
      apply List.any_eq_true.mpr
      refine ⟨if ur0.user_id == uid then { ur0 with is_primary := false } else ur0,
        List.mem_map_of_mem _ hmem0, ?_⟩
      by_cases hc : (ur0.user_id == uid) = true
      · rw [if_pos hc]
        simp [hk1, hk2, hk3]
      · rw [if_neg hc]
        simp [hk1, hk2, hk3]
    · rw [if_neg hip]
      exact List.any_eq_true.mpr ⟨ur0, hmem0, by simp [hk1, hk2, hk3]⟩
  have hres : assign_role db uid rn (some d) ab ip now =
      ({ db with
          user_roles := (if ip then
            db.user_roles.map (fun ur =>
              if ur.user_id == uid then { ur with is_primary := false } else ur)
          else db.user_roles).map
            (fun ur =>
              if ur.user_id == uid && ur.role_id == role.id &&
                  ur.department_id == some d then
                { ur with
                    is_active := true
                    is_primary := ip
                    assigned_by := ab
                    assigned_at := now }
              else ur) },
       true) := by
    unfold assign_role
    rw [hrole]
    simp only [hconf, Bool.not_true, Bool.false_eq_true, if_false]
  refine ⟨by rw [hres], ?_, ?_⟩
  · rw [hres]
    by_cases hip : ip = true <;> simp [hip]
  · intro ur hur k1 k2 k3
    rw [hres] at hur
    simp only at hur
    obtain ⟨x, hx, rfl⟩ := List.mem_map.mp hur
    by_cases hcx : (x.user_id == uid && x.role_id == role.id &&
        x.department_id == some d) = true
    · rw [if_pos hcx]
      exact ⟨rfl, rfl, rfl, rfl⟩
    · rw [if_neg hcx] at k1 k2 k3
      exact absurd (by simp [k1, k2, k3]) hcx

/-- Witness for C9: re-assigning `manager` in department 2 to user 20, who
already holds an (inactive, non-primary) such assignment row. -/
theorem C9_witness :
    get_role_by_name exDB9 "manager" =
      some { id := 2, name := "manager", display_name := "مدير",
             permissions := noPerms } ∧
    ((assign_role exDB9 20 "manager" (some 2) (some 40) true 7).2 = true ∧
     (assign_role exDB9 20 "manager" (some 2) (some 40) true 7).1.user_roles.length =
       exDB9.user_roles.length ∧
     ∀ ur ∈ (assign_role exDB9 20 "manager" (some 2) (some 40) true 7).1.user_roles,
       ur.user_id = 20 → ur.role_id = 2 → ur.department_id = some 2 →
         ur.is_active = true ∧ ur.is_primary = true ∧ ur.assigned_by = some 40 ∧
         ur.assigned_at = 7) :=
  ⟨by decide,
   C9_duplicate_assignment_updated exDB9 20 "manager" 2 (some 40) true 7
     { id := 2, name := "manager", display_name := "مدير", permissions := noPerms }
     (by decide) ⟨⟨20, 2, some 2, false, false, none, 0⟩, by decide, rfl, rfl, rfl⟩⟩

/-- C6, counterexample: from a state with no reports, employee 10 saves
report 1 as a draft and manager 20 then approves it — the approve handlers
never check the current status, so the reachable transition
draft → approved falls outside the claimed relation
draft → submitted → {approved, rejected}. -/
theorem C6_counterexample :
    ReachableFrom exC6init exC6s1 ∧
    exC6s2 = applyOp exC6s1 exC6op2 ∧
    ((exC6s1.reports.find? (fun r => r.id == 1)).map (fun r => r.status)) =
      some "draft" ∧
    ((exC6s2.reports.find? (fun r => r.id == 1)).map (fun r => r.status)) =
      some "approved" ∧
    ¬ claimedTransition "draft" "approved" := by
  refine ⟨ReachableFrom.step exC6op1 ReachableFrom.refl, rfl, by decide, by decide, ?_⟩
  unfold claimedTransition
  decide

theorem foldl_agg_reports (l : List Nat) (rid : Nat) (db0 : DB) :
    ∀ acc : DB,
      (l.foldl (fun acc sid =>
        { acc with
            report_aggregations := acc.report_aggregations ++
              [{ cumulative_report_id := rid
                 source_report_id := sid
                 department_id := (db0.reports.find? (fun r => r.id == sid)).bind
                   (fun r => r.department_id) }] }) acc).reports = acc.reports := by
  induction l with
  | nil => intro acc; rfl
  | cons a l ih =>
    intro acc
    rw [List.foldl_cons, ih]

theorem create_cumulative_report_mem (db : DB) (title : String) (sids : List Nat)
    (aggType aggPeriod : String) (uid : Nat) (dept : Option Nat) (content : String)
    (sd ed : Option Nat) (now : Nat) :
    ∀ r ∈ (create_cumulative_report db title sids aggType aggPeriod uid dept content
        sd ed now).1.reports,
      r ∈ db.reports ∨ (r.status = "submitted" ∧ r.is_cumulative = true) := by
  intro r hr
  unfold create_cumulative_report at hr
  simp only at hr
  rw [foldl_agg_reports sids (nextReportId db) db] at hr
  simp only at hr
  rcases List.mem_append.mp hr with hmem | hnew
  · exact Or.inl hmem
  · rw [List.mem_singleton] at hnew
    subst hnew
    exact Or.inr ⟨rfl, rfl⟩

theorem update_report_status_mem (db : DB) (rid : Nat) (st : String) (now : Nat) :
    ∀ r ∈ (update_report_status db rid st now).1.reports,
      r ∈ db.reports ∨
        ∃ x ∈ db.reports, r.status = st ∧ r.is_cumulative = x.is_cumulative := by
  intro r hr
  unfold update_report_status at hr
  simp only at hr
  obtain ⟨x, hx, rfl⟩ := List.mem_map.mp hr
  by_cases hc : (x.id == rid) = true
  · rw [if_pos hc]
    by_cases hs : (st == "submitted") = true
    · rw [if_pos hs]
      exact Or.inr ⟨x, hx, rfl, rfl⟩
    · rw [if_neg hs]
      exact Or.inr ⟨x, hx, rfl, rfl⟩
  · rw [if_neg hc]
    exact Or.inl hx

theorem invariant_applyOp (db : DB) (op : ReportOp)
    (h : ReportStatusInvariant db) : ReportStatusInvariant (applyOp db op) := by
  cases op with
  | save uid title content rtype submit now =>
    intro r hr
    unfold applyOp at hr
    simp only at hr
    unfold save_report at hr
    cases hud : get_user_department db uid with
    | none => rw [hud] at hr; exact h r hr
    | some ud =>
      rw [hud] at hr
      simp only at hr
      by_cases hz : (ud == 0) = true
      · rw [if_pos hz] at hr
        exact h r hr
      · rw [if_neg hz] at hr
        cases hval : validate_report_creation db uid (some ud) with
        | mk ok msg =>
          rw [hval] at hr
          cases ok with
          | false => exact h r hr
          | true =>
            simp only at hr
            unfold create_report at hr
            simp only at hr
            rcases List.mem_append.mp hr with hmem | hnew
            · exact h r hmem
            · rw [List.mem_singleton] at hnew
              subst hnew
              constructor
              · cases submit with
                | false => exact Or.inl rfl
                | true => exact Or.inr (Or.inl rfl)
              · intro hcum
                exact Bool.noConfusion hcum
  | approve uid rid fuel now =>
    cases happ : approve_report_command db uid rid fuel now with
    | none =>
      intro r hr
      unfold applyOp at hr
      simp only at hr
      rw [happ] at hr
      exact h r hr
    | some res =>
      intro r hr
      unfold applyOp at hr
      simp only at hr
      rw [happ] at hr
      simp only at hr
      unfold approve_report_command at happ
      cases hcan : can_approve_report db uid rid fuel with
      | none => rw [hcan] at happ; exact Option.noConfusion happ
      | some b =>
        rw [hcan] at happ
        cases b with
        | false =>
          simp only at happ
          cases happ
          exact h r hr
        | true =>
          simp only at happ
          cases happ
          rcases update_report_status_mem (add_approval db rid uid "approved" now) rid
              "approved" now r hr with hmem | ⟨x, hx, hst, hcum⟩
          · exact h r hmem
          · refine ⟨Or.inr (Or.inr hst), fun _ => ?_⟩
            rw [hst]
            decide
  | cumulative uid period sd ed resp fuel now =>
    cases hcph : cumulative_period_handler db uid period sd ed resp fuel now with
    | none =>
      intro r hr
      unfold applyOp at hr
      simp only at hr
      rw [hcph] at hr
      exact h r hr
    | some res =>
      intro r hr
      unfold applyOp at hr
      simp only at hr
      rw [hcph] at hr
      simp only at hr
      unfold cumulative_period_handler at hcph
      cases hud : get_user_department db uid with
      | none => rw [hud] at hcph; exact Option.noConfusion hcph
      | some ud =>
        rw [hud] at hcph
        simp only at hcph
        cases hrep : get_hierarchical_reports db ud sd ed (some "approved") fuel with
        | none => rw [hrep] at hcph; exact Option.noConfusion hcph
        | some reports =>
          rw [hrep] at hcph
          simp only at hcph
          by_cases hemp : reports.isEmpty = true
          · rw [if_pos hemp] at hcph
            cases hcph
            exact h r hr
          · rw [if_neg hemp] at hcph
            cases hcph
            rcases create_cumulative_report_mem db _ _ _ _ _ _ _ _ _ _ r hr with
              hmem | ⟨hst, hcum⟩
            · exact h r hmem
            · refine ⟨Or.inr (Or.inl hst), fun _ => ?_⟩
              rw [hst]
              decide

/-- C6, amended: in every state reachable through the report operations
from a state satisfying it, every report's status is draft, submitted or
approved (no other value — in particular `rejected` is never produced by
any code path), and a cumulative report is never in draft state; however
the approve operation does not check the current status, so a draft report
can transition directly to approved (see the counterexample). -/
theorem C6_status_invariant (init s : DB) (hinit : ReportStatusInvariant init)
    (hreach : ReachableFrom init s) : ReportStatusInvariant s := by
  induction hreach with
  | refl => exact hinit
  | step op _ ih => exact invariant_applyOp _ op ih

/-- Witness for C6: the two-step trace of the counterexample scenario
satisfies the invariant. -/
theorem C6_witness :
    ReportStatusInvariant exC6init ∧ ReportStatusInvariant exC6s2 :=
  ⟨by unfold ReportStatusInvariant; decide,
   C6_status_invariant exC6init exC6s2 (by unfold ReportStatusInvariant; decide)
     (ReachableFrom.step exC6op2 (ReachableFrom.step exC6op1 ReachableFrom.refl))⟩
